import Mathlib

/-!
Formal model of the contract risk-triage pipeline of this repository.

Documents, filenames and clauses are modelled as lists of characters
(`List Char`); the Python string operations of the source are translated
structurally; classifier confidence scores are rationals in place of
floats; and the two inference backends (zero-shot classifier and
abstractive summarizer) are abstract function parameters: the classifier
returns the top (label, score) pair that the code reads off the pipeline
result, and the summarizer either returns a summary string or signals an
exception through `Except`.

Two deployment surfaces exist in the source and are modelled separately:
`src/main.py` (JSON API, endpoint `analyze_contract`, clause cap 30, risk
threshold 0.4, safe threshold 0.5, safe list truncated to 10, summary
fallback on backend exception) and `src/app.py` (interactive dashboard,
function `main`, modelled here as `app_main`, clause cap 50, risk
threshold 0.35, safe threshold 0.5, safe list shown up to 8 with a
remainder count, no handler around the summarizer call).
-/

namespace LegalAudit

/-- Python `text.replace('\n', '.')`, the newline normalisation step of
`main.py` line 68 and `app.py` line 196, on a character list. -/
def pyReplaceNewline (l : List Char) : List Char :=
  l.map fun ch => if ch = '\n' then '.' else ch

/-- Python `s.split('.')`: split at every occurrence of the terminator,
keeping empty parts; the empty string yields one empty part. -/
def pySplitDot : List Char → List (List Char)
  | [] => [[]]
  | c :: rest =>
    if c = '.' then [] :: pySplitDot rest
    else
      match pySplitDot rest with
      | s :: ss => (c :: s) :: ss
      | [] => [[c]]

/-- The ASCII whitespace characters removed by Python `str.strip()`
(space, tab, newline, carriage return, vertical tab, form feed). -/
def isPySpace (c : Char) : Bool :=
  c = ' ' || c = '\t' || c = '\n' || c = '\r' || c = Char.ofNat 11 || c = Char.ofNat 12

/-- Python `s.strip()`: drop leading and trailing whitespace. -/
def pyStrip (l : List Char) : List Char :=
  ((l.dropWhile isPySpace).reverse.dropWhile isPySpace).reverse

/-- Clause segmentation, `main.py` line 68 and `app.py` line 196:
`[c.strip() for c in text.replace('\n', '.').split('.') if len(c.strip()) > 20]`.
The comprehension filters on the stripped length and emits the stripped
candidate. -/
def segmentClauses (text : List Char) : List (List Char) :=
  ((pySplitDot (pyReplaceNewline text)).filter fun c => (pyStrip c).length > 20).map pyStrip

/-- The segmentation pipeline as the specification words it: replace each
newline with the terminator, split on the terminator, trim every
candidate, then discard the candidates of trimmed length at most 20,
preserving order. Written independently of `segmentClauses` to be
compared with it. -/
def segmentClauses_spec (text : List Char) : List (List Char) :=
  ((pySplitDot (pyReplaceNewline text)).map pyStrip).filter fun c => c.length > 20

/-- The label taxonomy, `main.py` line 73 and `app.py` line 206. -/
def labels : List String :=
  ["Adversarial/Risky Trap", "Unfair Arbitration", "Hidden Liability",
   "Standard Clause", "Beneficial Clause"]

/-- The risk label subset, `main.py` line 74 and `app.py` line 207. -/
def risk_labels : List String :=
  ["Adversarial/Risky Trap", "Unfair Arbitration", "Hidden Liability"]

/-- Negotiation Advisor of the JSON surface: `get_tip`, `main.py`
lines 49 to 55, a dictionary lookup with a default. -/
def get_tip (label : String) : String :=
  if label = "Adversarial/Risky Trap" then
    "Request specific definition or removal of ambiguous terms."
  else if label = "Unfair Arbitration" then
    "Propose mutual arbitration or a neutral venue (e.g., AAA rules)."
  else if label = "Hidden Liability" then
    "Explicitly request mutual liability or a cap on damages."
  else "Review carefully."

/-- Negotiation Advisor of the interactive surface: `get_negotiation_tip`,
`app.py` lines 164 to 170. -/
def get_negotiation_tip (label : String) : String :=
  if label = "Adversarial/Risky Trap" then
    "🚩 <b>Negotiation Tip:</b> Request specific definition or removal of ambiguous terms."
  else if label = "Unfair Arbitration" then
    "⚖️ <b>Negotiation Tip:</b> Propose mutual arbitration or a neutral venue (e.g., AAA rules)."
  else if label = "Hidden Liability" then
    "🛡️ <b>Negotiation Tip:</b> Explicitly request mutual liability or a cap on damages (e.g., 1x contract value)."
  else "Review carefully."

/-- Abstract classification backend: for a clause, the top label and the
top score, the two values the code reads from the pipeline result
(`res['labels'][0]`, `res['scores'][0]`). -/
abbrev Classifier := List Char → String × ℚ

/-- Abstract summarization backend: a summary string, or an exception. -/
abbrev Summarizer := List Char → Except Unit String

/-- A risk finding as assembled in `main.py` lines 85 to 90 and `app.py`
lines 219 to 224: clause text, top label, top score, negotiation tip. -/
structure RiskFinding where
  clause : List Char
  label : String
  score : ℚ
  tip : String
deriving DecidableEq

/-- Outcome of the per-clause routing decision: a risk finding, a safe
point, or neither. -/
inductive Route where
  | risk (f : RiskFinding)
  | safe (clause : List Char)
  | dropped
deriving DecidableEq

/-- Risk threshold of the JSON surface, the literal `0.4` of `main.py`
line 84. -/
def RISK_THRESHOLD_MAIN : ℚ := 2/5

/-- Safe threshold of the JSON surface, the literal `0.5` of `main.py`
line 91. -/
def SAFE_THRESHOLD_MAIN : ℚ := 1/2

/-- Risk threshold of the interactive surface, the literal `0.35` of
`app.py` line 218. -/
def RISK_THRESHOLD_APP : ℚ := 7/20

/-- Safe threshold of the interactive surface, the literal `0.5` of
`app.py` line 225. -/
def SAFE_THRESHOLD_APP : ℚ := 1/2

/-- Per-clause routing of `main.py` lines 84 to 92: risk finding when the
top label is a risk label with score above 0.4, else safe point when the
score is above 0.5, else dropped. -/
def routeMain (clause : List Char) (top : String) (score : ℚ) : Route :=
  if top ∈ risk_labels ∧ RISK_THRESHOLD_MAIN < score then
    .risk { clause := clause, label := top, score := score, tip := get_tip top }
  else if SAFE_THRESHOLD_MAIN < score then
    .safe clause
  else
    .dropped

/-- Per-clause routing of `app.py` lines 218 to 226: risk finding when
the top label is a risk label with score above 0.35, else safe point when
the score is above 0.5, else dropped. -/
def routeApp (clause : List Char) (top : String) (score : ℚ) : Route :=
  if top ∈ risk_labels ∧ RISK_THRESHOLD_APP < score then
    .risk { clause := clause, label := top, score := score, tip := get_negotiation_tip top }
  else if SAFE_THRESHOLD_APP < score then
    .safe clause
  else
    .dropped

/-- Classified clauses of the JSON surface: `clauses = clauses[:30]`,
`main.py` line 69. -/
def classifiedClauses_main (text : List Char) : List (List Char) :=
  (segmentClauses text).take 30

/-- Classified clauses of the interactive surface, `app.py` lines 199 to
201: truncate to 50 only when more than 50 were segmented. -/
def classifiedClauses_app (text : List Char) : List (List Char) :=
  let clauses := segmentClauses text
  if clauses.length > 50 then clauses.take 50 else clauses

/-- The risk finding carried by a route outcome, if any. -/
def riskOf : Route → Option RiskFinding
  | .risk f => some f
  | _ => none

/-- The safe point carried by a route outcome, if any. -/
def safeOf : Route → Option (List Char)
  | .safe c => some c
  | _ => none

/-- The `risks` list built by the classification loop of `main.py`
lines 79 to 92: one finding per classified clause that routes to risk,
in document order. -/
def risks_main (classify : Classifier) (text : List Char) : List RiskFinding :=
  (classifiedClauses_main text).filterMap fun c =>
    riskOf (routeMain c (classify c).1 (classify c).2)

/-- The `safe_points` list built by the classification loop of `main.py`
lines 79 to 92, before the report-level truncation. -/
def safe_main (classify : Classifier) (text : List Char) : List (List Char) :=
  (classifiedClauses_main text).filterMap fun c =>
    safeOf (routeMain c (classify c).1 (classify c).2)

/-- The `risks` list built by the classification loop of `app.py`
lines 211 to 226. -/
def risks_app (classify : Classifier) (text : List Char) : List RiskFinding :=
  (classifiedClauses_app text).filterMap fun c =>
    riskOf (routeApp c (classify c).1 (classify c).2)

/-- The `safe_points` list built by the classification loop of `app.py`
lines 211 to 226, before the display-level truncation. -/
def safe_app (classify : Classifier) (text : List Char) : List (List Char) :=
  (classifiedClauses_app text).filterMap fun c =>
    safeOf (routeApp c (classify c).1 (classify c).2)

/-- The fallback summary of `main.py` line 101. -/
def FALLBACK_SUMMARY : String := "Analysis complete, but summary generation timed out."

/-- Summary computation of `main.py` lines 94 to 101: the summarizer runs
on the first 3000 characters inside a handler; on exception the fallback
string is substituted. -/
def summary_main (summarize : Summarizer) (text : List Char) : String :=
  match summarize (text.take 3000) with
  | .ok s => s
  | .error _ => FALLBACK_SUMMARY

/-- The JSON report of `main.py` lines 103 to 108. -/
structure AuditReport where
  risk_density : ℚ
  risks : List RiskFinding
  safe_points : List (List Char)
  summary : String
deriving DecidableEq

/-- Report assembly of the JSON surface, `main.py` lines 68 to 108, after
the filename and extraction guards: segment and cap the clauses, route
each one, compute the density with its divide-by-zero guard, truncate the
safe list to 10, and attach the summary. -/
def analyze_main (classify : Classifier) (summarize : Summarizer)
    (text : List Char) : AuditReport :=
  let clauses := classifiedClauses_main text
  let risks := risks_main classify text
  { risk_density := if clauses.isEmpty then 0 else (risks.length : ℚ) / (clauses.length : ℚ)
    risks := risks
    safe_points := (safe_main classify text).take 10
    summary := summary_main summarize text }

/-- An HTTP error as raised by `main.py` (`HTTPException(status_code, detail)`). -/
structure HTTPError where
  status : Nat
  detail : String
deriving DecidableEq

/-- Python `filename.endswith('.pdf')`, `main.py` line 59. -/
def pyEndsWithPdf (filename : List Char) : Bool :=
  ".pdf".toList.isSuffixOf filename

/-- The `/analyze` endpoint of `main.py` lines 57 to 108: reject a
filename not ending in `.pdf` with a 400 before touching the upload,
reject empty extracted text with a 400, otherwise analyze. The upload
contents and the extractor are abstract parameters. -/
def analyze_contract {α : Type} (classify : Classifier) (summarize : Summarizer)
    (filename : List Char) (contents : α) (extract_text : α → List Char) :
    Except HTTPError AuditReport :=
  if ¬ pyEndsWithPdf filename then
    .error { status := 400, detail := "File must be a PDF" }
  else
    let text := extract_text contents
    if text.isEmpty then
      .error { status := 400, detail := "Could not extract text" }
    else
      .ok (analyze_main classify summarize text)

/-- What the interactive surface of `app.py` renders on a successful run:
the density metric, every risk finding, the first 8 safe points, the
remainder count of the safe-list caption (0 when nothing is elided), the
full safe count of the column header, and the executive summary. -/
structure AppReport where
  risk_density : ℚ
  risks : List RiskFinding
  safe_shown : List (List Char)
  safe_more : Nat
  safe_total : Nat
  summary : String
deriving DecidableEq

/-- Outcome of one interactive run: early return on empty extracted text,
a crash when the unhandled summarizer exception propagates, or a rendered
report. -/
inductive AppOutcome where
  | noText
  | crashed
  | report (r : AppReport)
deriving DecidableEq

/-- Risk density of the interactive surface, `app.py` line 232, with the
same divide-by-zero guard as the JSON surface. -/
def risk_density_app (classify : Classifier) (text : List Char) : ℚ :=
  if (classifiedClauses_app text).isEmpty then 0
  else ((risks_app classify text).length : ℚ) / ((classifiedClauses_app text).length : ℚ)

/-- The interactive run of `app.py` `main`, lines 189 to 293, from the
extracted text on: empty text returns early; clauses are segmented,
capped and routed; the summarizer call on the first 4000 characters has
no exception handler, so a backend exception ends the run with no report
summary; otherwise the rendered report carries the density, all risks,
the first 8 safe points and the remainder count. -/
def app_main (classify : Classifier) (summarize : Summarizer)
    (text : List Char) : AppOutcome :=
  if text.isEmpty then .noText
  else
    let safe := safe_app classify text
    match summarize (text.take 4000) with
    | .error _ => .crashed
    | .ok s =>
      .report
        { risk_density := risk_density_app classify text
          risks := risks_app classify text
          safe_shown := safe.take 8
          safe_more := if safe.length > 8 then safe.length - 8 else 0
          safe_total := safe.length
          summary := s }

/-- A concrete document that segments into exactly 60 clauses of 21
characters each, used to exercise the clause cap. -/
def witText : List Char :=
  List.intercalate ['.'] (List.replicate 60 (List.replicate 21 'A'))

/-! Helper lemmas about the routing and list machinery, shared by the
claim theorems below. -/

lemma riskOf_routeMain_some {c : List Char} {t : String} {s : ℚ} {f : RiskFinding}
    (h : riskOf (routeMain c t s) = some f) :
    f = ⟨c, t, s, get_tip t⟩ ∧ t ∈ risk_labels ∧ RISK_THRESHOLD_MAIN < s := by
  unfold routeMain at h
  split at h
  · next hc => simp only [riskOf, Option.some.injEq] at h; exact ⟨h.symm, hc⟩
  · next hc => split at h <;> simp [riskOf] at h

lemma riskOf_routeApp_some {c : List Char} {t : String} {s : ℚ} {f : RiskFinding}
    (h : riskOf (routeApp c t s) = some f) :
    f = ⟨c, t, s, get_negotiation_tip t⟩ ∧ t ∈ risk_labels ∧ RISK_THRESHOLD_APP < s := by
  unfold routeApp at h
  split at h
  · next hc => simp only [riskOf, Option.some.injEq] at h; exact ⟨h.symm, hc⟩
  · next hc => split at h <;> simp [riskOf] at h

lemma routeMain_risk_eq {c : List Char} {t : String} {s : ℚ}
    (ht : t ∈ risk_labels) (hs : RISK_THRESHOLD_MAIN < s) :
    routeMain c t s = .risk ⟨c, t, s, get_tip t⟩ := by
  unfold routeMain
  rw [if_pos ⟨ht, hs⟩]

lemma routeApp_risk_eq {c : List Char} {t : String} {s : ℚ}
    (ht : t ∈ risk_labels) (hs : RISK_THRESHOLD_APP < s) :
    routeApp c t s = .risk ⟨c, t, s, get_negotiation_tip t⟩ := by
  unfold routeApp
  rw [if_pos ⟨ht, hs⟩]

lemma safeOf_routeMain_some {c c' : List Char} {t : String} {s : ℚ}
    (h : safeOf (routeMain c t s) = some c') :
    c' = c ∧ t ∉ risk_labels ∧ SAFE_THRESHOLD_MAIN < s := by
  unfold routeMain at h
  split at h
  · simp [safeOf] at h
  · next hc =>
    split at h
    · next hs =>
      simp only [safeOf, Option.some.injEq] at h
      refine ⟨h.symm, ?_, hs⟩
      intro ht
      refine hc ⟨ht, lt_trans ?_ hs⟩
      norm_num [RISK_THRESHOLD_MAIN, SAFE_THRESHOLD_MAIN]
    · simp [safeOf] at h

lemma safeOf_routeApp_some {c c' : List Char} {t : String} {s : ℚ}
    (h : safeOf (routeApp c t s) = some c') :
    c' = c ∧ t ∉ risk_labels ∧ SAFE_THRESHOLD_APP < s := by
  unfold routeApp at h
  split at h
  · simp [safeOf] at h
  · next hc =>
    split at h
    · next hs =>
      simp only [safeOf, Option.some.injEq] at h
      refine ⟨h.symm, ?_, hs⟩
      intro ht
      refine hc ⟨ht, lt_trans ?_ hs⟩
      norm_num [RISK_THRESHOLD_APP, SAFE_THRESHOLD_APP]
    · simp [safeOf] at h

lemma routeMain_safe_eq {c : List Char} {t : String} {s : ℚ}
    (ht : t ∉ risk_labels) (hs : SAFE_THRESHOLD_MAIN < s) :
    routeMain c t s = .safe c := by
  unfold routeMain
  rw [if_neg (fun hc => ht hc.1), if_pos hs]

lemma routeApp_safe_eq {c : List Char} {t : String} {s : ℚ}
    (ht : t ∉ risk_labels) (hs : SAFE_THRESHOLD_APP < s) :
    routeApp c t s = .safe c := by
  unfold routeApp
  rw [if_neg (fun hc => ht hc.1), if_pos hs]

lemma count_filterMap_clause {l : List (List Char)} {g : List Char → Option RiskFinding}
    {c : List Char} {f : RiskFinding}
    (hmk : g c = some f) (hcl : f.clause = c)
    (hinj : ∀ a fa, g a = some fa → fa.clause = a) :
    (l.filterMap g).count f = l.count c := by
  induction l with
  | nil => rfl
  | cons a l ih =>
    rw [List.filterMap_cons]
    by_cases hac : a = c
    · subst hac
      rw [hmk]
      simp [List.count_cons, ih]
    · cases hga : g a with
      | none =>
        simpa [List.count_cons, hac] using ih
      | some fa =>
        have hne : fa ≠ f := by
          intro he
          exact hac (by rw [← hinj a fa hga, he, hcl])
        simp [List.count_cons, hac, hne, ih]

lemma not_mem_safe_main {classify : Classifier} {text clause : List Char}
    (h : (classify clause).1 ∈ risk_labels) :
    clause ∉ safe_main classify text := by
  intro hmem
  unfold safe_main at hmem
  obtain ⟨b, _, hb⟩ := List.mem_filterMap.mp hmem
  obtain ⟨hbc, hnr, _⟩ := safeOf_routeMain_some hb
  subst hbc
  exact hnr h

lemma not_mem_safe_app {classify : Classifier} {text clause : List Char}
    (h : (classify clause).1 ∈ risk_labels) :
    clause ∉ safe_app classify text := by
  intro hmem
  unfold safe_app at hmem
  obtain ⟨b, _, hb⟩ := List.mem_filterMap.mp hmem
  obtain ⟨hbc, hnr, _⟩ := safeOf_routeApp_some hb
  subst hbc
  exact hnr h

/-! The claim theorems. -/

/-- C5: for every input text, segmentation yields exactly the candidates
obtained by replacing each newline with the sentence terminator, splitting
on the terminator, trimming whitespace and discarding every candidate of
trimmed length at most 20, in document order; and the empty input yields
the empty sequence. -/
theorem c5_segmentation_pipeline :
    (∀ text : List Char, segmentClauses text = segmentClauses_spec text) ∧
    segmentClauses [] = [] := by
  constructor
  · intro text
    unfold segmentClauses segmentClauses_spec
    generalize pySplitDot (pyReplaceNewline text) = l
    induction l with
    | nil => rfl
    | cons a l ih =>
      by_cases ha : (pyStrip a).length > 20
      · simp [List.filter_cons, List.map_cons, ha, ih]
      · simp [List.filter_cons, List.map_cons, ha, ih]
  · rfl

/-- C9: two runs on the same text with the same classifier and the same
deterministic summarizer produce identical reports, on both surfaces. -/
theorem c9_determinism (classify : Classifier) (summarize : Summarizer)
    (text1 text2 : List Char) (h : text1 = text2) :
    analyze_main classify summarize text1 = analyze_main classify summarize text2 ∧
    app_main classify summarize text1 = app_main classify summarize text2 := by
  subst h
  exact ⟨rfl, rfl⟩

/-- Witness for C9 at a concrete text and concrete backends. -/
theorem c9_determinism_witness :
    analyze_main (fun _ => ("Hidden Liability", 41/50)) (fun _ => .ok "Both runs agree.")
        "Deterministic run of the analyzer over this contract text.".toList =
      analyze_main (fun _ => ("Hidden Liability", 41/50)) (fun _ => .ok "Both runs agree.")
        "Deterministic run of the analyzer over this contract text.".toList ∧
    app_main (fun _ => ("Hidden Liability", 41/50)) (fun _ => .ok "Both runs agree.")
        "Deterministic run of the analyzer over this contract text.".toList =
      app_main (fun _ => ("Hidden Liability", 41/50)) (fun _ => .ok "Both runs agree.")
        "Deterministic run of the analyzer over this contract text.".toList :=
  c9_determinism (fun _ => ("Hidden Liability", 41/50)) (fun _ => .ok "Both runs agree.")
    "Deterministic run of the analyzer over this contract text.".toList
    "Deterministic run of the analyzer over this contract text.".toList rfl

/-- C10: an upload whose filename does not end in ".pdf" is rejected with
an HTTP 400 error, whatever the upload contents, the extractor and the
backends are: the rejection happens before the file is read and no
segmentation, classification or summarization takes place. -/
theorem c10_non_pdf_rejected {α : Type} (classify : Classifier) (summarize : Summarizer)
    (filename : List Char) (contents : α) (extract_text : α → List Char)
    (h : pyEndsWithPdf filename = false) :
    analyze_contract classify summarize filename contents extract_text =
      .error { status := 400, detail := "File must be a PDF" } := by
  simp [analyze_contract, h]

/-- Witness for C10 at a concrete non-pdf filename. -/
theorem c10_non_pdf_rejected_witness :
    analyze_contract (fun _ => ("Standard Clause", 1/2)) (fun _ => .ok "A summary.")
        "contract.txt".toList () (fun _ => "Some extracted contract text.".toList) =
      .error { status := 400, detail := "File must be a PDF" } :=
  c10_non_pdf_rejected (fun _ => ("Standard Clause", 1/2)) (fun _ => .ok "A summary.")
    "contract.txt".toList () (fun _ => "Some extracted contract text.".toList) (by decide)

/-- C2: on both surfaces a clause becomes a safe point exactly when its
top label is not a risk label and its top score exceeds the safe
threshold; consequently a clause whose top label is a risk label never
appears in the safe list. -/
theorem c2_safe_routing (clause : List Char) (top : String) (score : ℚ)
    (classify : Classifier) (text : List Char) :
    (routeMain clause top score = .safe clause ↔
      top ∉ risk_labels ∧ SAFE_THRESHOLD_MAIN < score) ∧
    (routeApp clause top score = .safe clause ↔
      top ∉ risk_labels ∧ SAFE_THRESHOLD_APP < score) ∧
    ((classify clause).1 ∈ risk_labels → clause ∉ safe_main classify text) ∧
    ((classify clause).1 ∈ risk_labels → clause ∉ safe_app classify text) := by
  refine ⟨⟨fun h => ?_, fun h => routeMain_safe_eq h.1 h.2⟩,
          ⟨fun h => ?_, fun h => routeApp_safe_eq h.1 h.2⟩,
          fun h => not_mem_safe_main h, fun h => not_mem_safe_app h⟩
  · have hs : safeOf (routeMain clause top score) = some clause := by rw [h]; rfl
    obtain ⟨-, hnr, hgt⟩ := safeOf_routeMain_some hs
    exact ⟨hnr, hgt⟩
  · have hs : safeOf (routeApp clause top score) = some clause := by rw [h]; rfl
    obtain ⟨-, hnr, hgt⟩ := safeOf_routeApp_some hs
    exact ⟨hnr, hgt⟩

/-- Witness for C2: a clause classified with a risk top label is kept out
of the safe list of a concrete run, and a high-scoring non-risk clause
routes safe. -/
theorem c2_safe_routing_witness :
    routeMain "Payments are due within thirty days of invoice receipt.".toList
        "Standard Clause" (3/4) =
      .safe "Payments are due within thirty days of invoice receipt.".toList ∧
    "This clause imposes unlimited liability on the user side.".toList ∉
      safe_main (fun _ => ("Hidden Liability", 9/10))
        "This clause imposes unlimited liability on the user side.".toList := by
  constructor
  · exact (c2_safe_routing "Payments are due within thirty days of invoice receipt.".toList
      "Standard Clause" (3/4) (fun _ => ("Hidden Liability", 9/10))
      "This clause imposes unlimited liability on the user side.".toList).1.mpr
      ⟨by decide, by norm_num [SAFE_THRESHOLD_MAIN]⟩
  · exact (c2_safe_routing "This clause imposes unlimited liability on the user side.".toList
      "Standard Clause" (3/4) (fun _ => ("Hidden Liability", 9/10))
      "This clause imposes unlimited liability on the user side.".toList).2.2.1 (by decide)

/-- C3: on both surfaces the reported risk density is the number of risk
findings divided by the number of classified clauses, is 0 when no clause
was classified, and always lies in the closed interval from 0 to 1. -/
theorem c3_risk_density (classify : Classifier) (summarize : Summarizer) (text : List Char) :
    ((analyze_main classify summarize text).risk_density =
      if classifiedClauses_main text = [] then 0
      else ((risks_main classify text).length : ℚ) / ((classifiedClauses_main text).length : ℚ)) ∧
    0 ≤ (analyze_main classify summarize text).risk_density ∧
    (analyze_main classify summarize text).risk_density ≤ 1 ∧
    (risk_density_app classify text =
      if classifiedClauses_app text = [] then 0
      else ((risks_app classify text).length : ℚ) / ((classifiedClauses_app text).length : ℚ)) ∧
    0 ≤ risk_density_app classify text ∧
    risk_density_app classify text ≤ 1 := by
  have hmain : (analyze_main classify summarize text).risk_density =
      if (classifiedClauses_main text).isEmpty then 0
      else ((risks_main classify text).length : ℚ) / ((classifiedClauses_main text).length : ℚ) := rfl
  have happ : risk_density_app classify text =
      if (classifiedClauses_app text).isEmpty then 0
      else ((risks_app classify text).length : ℚ) / ((classifiedClauses_app text).length : ℚ) := rfl
  have hbounds : ∀ (clauses : List (List Char)) (risks : List RiskFinding),
      risks.length ≤ clauses.length →
      0 ≤ (if clauses.isEmpty then (0 : ℚ)
            else (risks.length : ℚ) / (clauses.length : ℚ)) ∧
      (if clauses.isEmpty then (0 : ℚ)
        else (risks.length : ℚ) / (clauses.length : ℚ)) ≤ 1 := by
    intro clauses risks hle
    by_cases hc : clauses.isEmpty
    · simp [hc]
    · rw [if_neg hc]
      have hpos : (0 : ℚ) < (clauses.length : ℚ) := by
        have : clauses ≠ [] := by
          intro h
          exact hc (by simp [h])
        have := List.length_pos.mpr this
        exact_mod_cast this
      constructor
      · exact div_nonneg (by positivity) (le_of_lt hpos)
      · exact (div_le_one hpos).mpr (by exact_mod_cast hle)
  have hle_main : (risks_main classify text).length ≤ (classifiedClauses_main text).length :=
    List.length_filterMap_le _ _
  have hle_app : (risks_app classify text).length ≤ (classifiedClauses_app text).length :=
    List.length_filterMap_le _ _
  refine ⟨?_, ?_, ?_, ?_, ?_, ?_⟩
  · rw [hmain]
    by_cases h : classifiedClauses_main text = [] <;> simp [h, List.isEmpty_iff]
  · rw [hmain]; exact (hbounds _ _ hle_main).1
  · rw [hmain]; exact (hbounds _ _ hle_main).2
  · rw [happ]
    by_cases h : classifiedClauses_app text = [] <;> simp [h, List.isEmpty_iff]
  · rw [happ]; exact (hbounds _ _ hle_app).1
  · rw [happ]; exact (hbounds _ _ hle_app).2

/-- C6: the risks list of the assembled report is the full, untruncated
list of risk findings, bounded by the classified clause count; the
reported safe list is truncated to 10 on the JSON surface and to 8 on the
interactive surface, whose caption carries the remainder count. -/
theorem c6_truncation (classify : Classifier) (summarize : Summarizer) (text : List Char) :
    (analyze_main classify summarize text).risks = risks_main classify text ∧
    (analyze_main classify summarize text).risks.length ≤ (classifiedClauses_main text).length ∧
    (analyze_main classify summarize text).safe_points = (safe_main classify text).take 10 ∧
    (analyze_main classify summarize text).safe_points.length ≤
      min (safe_main classify text).length 10 ∧
    (∀ r, app_main classify summarize text = .report r →
      r.risks = risks_app classify text ∧
      r.risks.length ≤ (classifiedClauses_app text).length ∧
      r.safe_shown = (safe_app classify text).take 8 ∧
      r.safe_shown.length ≤ min (safe_app classify text).length 8 ∧
      r.safe_more =
        (if (safe_app classify text).length > 8 then (safe_app classify text).length - 8 else 0)) := by
  refine ⟨rfl, List.length_filterMap_le _ _, rfl, ?_, ?_⟩
  · have : (analyze_main classify summarize text).safe_points.length =
        min 10 (safe_main classify text).length := List.length_take _ _
    omega
  · intro r hr
    unfold app_main at hr
    split at hr
    · exact absurd hr (by simp)
    · split at hr
      · exact absurd hr (by simp)
      · simp only [AppOutcome.report.injEq] at hr
        subst hr
        refine ⟨rfl, List.length_filterMap_le _ _, rfl, ?_, rfl⟩
        show ((safe_app classify text).take 8).length ≤ min (safe_app classify text).length 8
        have : ((safe_app classify text).take 8).length =
            min 8 (safe_app classify text).length := List.length_take _ _
        omega

/-- Witness for C6: a concrete interactive run that produces a report,
with the app-side conclusions instantiated on it. -/
theorem c6_truncation_witness :
    app_main (fun _ => ("Standard Clause", 1/4)) (fun _ => .ok "All fine.")
        "Tiny. Bits.".toList =
      .report { risk_density := 0, risks := [], safe_shown := [],
                safe_more := 0, safe_total := 0, summary := "All fine." } ∧
    ({ risk_density := 0, risks := [], safe_shown := [], safe_more := 0,
       safe_total := 0, summary := "All fine." } : AppReport).risks =
      risks_app (fun _ => ("Standard Clause", 1/4)) "Tiny. Bits.".toList ∧
    ({ risk_density := 0, risks := [], safe_shown := [], safe_more := 0,
       safe_total := 0, summary := "All fine." } : AppReport).safe_shown.length ≤
      min (safe_app (fun _ => ("Standard Clause", 1/4)) "Tiny. Bits.".toList).length 8 := by
  have hrep : app_main (fun _ => ("Standard Clause", 1/4)) (fun _ => .ok "All fine.")
      "Tiny. Bits.".toList =
      .report { risk_density := 0, risks := [], safe_shown := [],
                safe_more := 0, safe_total := 0, summary := "All fine." } := by rfl
  have h := (c6_truncation (fun _ => ("Standard Clause", 1/4)) (fun _ => .ok "All fine.")
      "Tiny. Bits.".toList).2.2.2.2 _ hrep
  exact ⟨hrep, h.1, h.2.2.2.1⟩

/-- C1: on both surfaces, a classified clause whose top label is a risk
label with score strictly above the risk threshold contributes exactly
one risk finding per occurrence, carrying the clause, the label, the
score and the Negotiation Advisor tip for that label, and the clause
never appears in the safe list. -/
theorem c1_risk_routing (classify : Classifier) (summarize : Summarizer)
    (text clause : List Char) (top : String) (score : ℚ)
    (hcl : classify clause = (top, score)) (hlab : top ∈ risk_labels) :
    (RISK_THRESHOLD_MAIN < score →
      (analyze_main classify summarize text).risks.count
          ⟨clause, top, score, get_tip top⟩ =
        (classifiedClauses_main text).count clause ∧
      clause ∉ safe_main classify text) ∧
    (RISK_THRESHOLD_APP < score →
      (risks_app classify text).count
          ⟨clause, top, score, get_negotiation_tip top⟩ =
        (classifiedClauses_app text).count clause ∧
      clause ∉ safe_app classify text) := by
  constructor
  · intro hs
    constructor
    · show (risks_main classify text).count _ = _
      unfold risks_main
      refine count_filterMap_clause ?_ rfl ?_
      · rw [hcl, routeMain_risk_eq hlab hs]
        rfl
      · intro a fa hfa
        rw [(riskOf_routeMain_some hfa).1]
    · exact not_mem_safe_main (by rw [hcl]; exact hlab)
  · intro hs
    constructor
    · unfold risks_app
      refine count_filterMap_clause ?_ rfl ?_
      · rw [hcl, routeApp_risk_eq hlab hs]
        rfl
      · intro a fa hfa
        rw [(riskOf_routeApp_some hfa).1]
    · exact not_mem_safe_app (by rw [hcl]; exact hlab)

/-- Witness for C1: scenario A of the specification, a liability waiver
classified as Hidden Liability with score 0.82. -/
theorem c1_risk_routing_witness :
    (analyze_main (fun _ => ("Hidden Liability", 41/50)) (fun _ => .ok "S")
        "The provider shall not be liable for any damages, incidental or consequential, arising from the use of the service.".toList).risks.count
        ⟨"The provider shall not be liable for any damages, incidental or consequential, arising from the use of the service".toList,
          "Hidden Liability", 41/50, get_tip "Hidden Liability"⟩ =
      (classifiedClauses_main
          "The provider shall not be liable for any damages, incidental or consequential, arising from the use of the service.".toList).count
        "The provider shall not be liable for any damages, incidental or consequential, arising from the use of the service".toList ∧
    "The provider shall not be liable for any damages, incidental or consequential, arising from the use of the service".toList ∉
      safe_main (fun _ => ("Hidden Liability", 41/50))
        "The provider shall not be liable for any damages, incidental or consequential, arising from the use of the service.".toList :=
  (c1_risk_routing (fun _ => ("Hidden Liability", 41/50)) (fun _ => .ok "S")
      "The provider shall not be liable for any damages, incidental or consequential, arising from the use of the service.".toList
      "The provider shall not be liable for any damages, incidental or consequential, arising from the use of the service".toList
      "Hidden Liability" (41/50) rfl (by decide)).1
    (by norm_num [RISK_THRESHOLD_MAIN])

/-- C4: the clause list is capped before classification by keeping the
document-order head of the segmented list; the interactive cap is 50, so
more than 50 raw clauses leave exactly 50 classified and the density
denominator is 50; findings only ever come from classified clauses. -/
theorem c4_cap (classify : Classifier) (text : List Char) :
    (∃ rest, segmentClauses text = classifiedClauses_main text ++ rest) ∧
    (∃ rest, segmentClauses text = classifiedClauses_app text ++ rest) ∧
    (classifiedClauses_main text).length ≤ 30 ∧
    (classifiedClauses_app text).length ≤ 50 ∧
    ((segmentClauses text).length > 50 → (classifiedClauses_app text).length = 50) ∧
    ((segmentClauses text).length > 50 →
      risk_density_app classify text = ((risks_app classify text).length : ℚ) / 50) ∧
    (∀ f ∈ risks_app classify text, f.clause ∈ classifiedClauses_app text) ∧
    (∀ c ∈ safe_app classify text, c ∈ classifiedClauses_app text) := by
  have happ_def : classifiedClauses_app text =
      if (segmentClauses text).length > 50 then (segmentClauses text).take 50
      else segmentClauses text := rfl
  have h50 : (segmentClauses text).length > 50 →
      (classifiedClauses_app text).length = 50 := by
    intro h
    rw [happ_def, if_pos h, List.length_take]
    omega
  refine ⟨⟨(segmentClauses text).drop 30, (List.take_append_drop 30 _).symm⟩,
          ?_, ?_, ?_, h50, ?_, ?_, ?_⟩
  · rw [happ_def]
    by_cases h : (segmentClauses text).length > 50
    · exact ⟨(segmentClauses text).drop 50, by rw [if_pos h, List.take_append_drop]⟩
    · exact ⟨[], by rw [if_neg h, List.append_nil]⟩
  · show ((segmentClauses text).take 30).length ≤ 30
    rw [List.length_take]
    omega
  · rw [happ_def]
    by_cases h : (segmentClauses text).length > 50
    · rw [if_pos h, List.length_take]
      omega
    · rw [if_neg h]
      omega
  · intro h
    have hne : (classifiedClauses_app text).isEmpty = false := by
      rcases he : (classifiedClauses_app text).isEmpty with _ | _
      · rfl
      · have := List.isEmpty_iff.mp he
        have := h50 h
        rw [‹classifiedClauses_app text = []›] at this
        simp at this
    unfold risk_density_app
    rw [hne]
    simp only [Bool.false_eq_true, if_false]
    rw [h50 h]
    norm_num
  · intro f hf
    unfold risks_app at hf
    obtain ⟨b, hb, hfb⟩ := List.mem_filterMap.mp hf
    rw [(riskOf_routeApp_some hfb).1]
    exact hb
  · intro c hc
    unfold safe_app at hc
    obtain ⟨b, hb, hcb⟩ := List.mem_filterMap.mp hc
    rw [(safeOf_routeApp_some hcb).1]
    exact hb

/-- Witness for C4: scenario C with the interactive cap, a document of 60
raw clauses of which exactly 50 are classified. -/
theorem c4_cap_witness :
    (segmentClauses witText).length = 60 ∧
    (classifiedClauses_app witText).length = 50 :=
  ⟨by decide,
    (c4_cap (fun _ => ("Standard Clause", 1/2)) witText).2.2.2.2.1 (by decide)⟩

/-- C7 counterexample: on the interactive surface a summarizer exception
is not handled, so a concrete run with a raising backend ends in a crash
and no report whose summary field holds the fallback string exists. -/
theorem c7_counterexample :
    app_main (fun _ => ("Standard Clause", 9/10)) (fun _ => .error ())
        "This agreement continues until terminated by either party.".toList =
      AppOutcome.crashed := by
  rfl

/-- C7 amended: on the JSON surface a summarizer exception yields the
fallback summary verbatim while the risk and safe lists stay fully
populated; on the interactive surface the exception propagates unhandled
and the run produces no report at all. -/
theorem c7_amended (classify : Classifier) (summarize : Summarizer) (text : List Char) :
    (summarize (text.take 3000) = .error () →
      (analyze_main classify summarize text).summary = FALLBACK_SUMMARY ∧
      (analyze_main classify summarize text).risks = risks_main classify text ∧
      (analyze_main classify summarize text).safe_points = (safe_main classify text).take 10) ∧
    (summarize (text.take 4000) = .error () → ¬ text.isEmpty →
      app_main classify summarize text = AppOutcome.crashed) := by
  constructor
  · intro h
    refine ⟨?_, rfl, rfl⟩
    show summary_main summarize text = FALLBACK_SUMMARY
    unfold summary_main
    rw [h]
  · intro h hne
    unfold app_main
    rw [if_neg hne, h]

/-- Witness for C7 amended, at a concrete text and a raising backend. -/
theorem c7_amended_witness :
    (analyze_main (fun _ => ("Standard Clause", 9/10)) (fun _ => .error ())
        "The supplier may amend any term of this agreement without notice.".toList).summary =
      FALLBACK_SUMMARY ∧
    app_main (fun _ => ("Standard Clause", 9/10)) (fun _ => .error ())
        "The supplier may amend any term of this agreement without notice.".toList =
      AppOutcome.crashed :=
  ⟨((c7_amended (fun _ => ("Standard Clause", 9/10)) (fun _ => .error ())
      "The supplier may amend any term of this agreement without notice.".toList).1 rfl).1,
    (c7_amended (fun _ => ("Standard Clause", 9/10)) (fun _ => .error ())
      "The supplier may amend any term of this agreement without notice.".toList).2 rfl
      (by decide)⟩

/-- C8 counterexample: a non-empty document that segments into zero
clauses yields density 0 and empty lists, but its summary field holds the
genuine summarizer output, which is neither omitted nor the fallback
string. -/
theorem c8_counterexample :
    analyze_main (fun _ => ("Standard Clause", 9/10))
        (fun _ => .ok "A concise synopsis of the document.")
        "Short. Bits. Tiny.".toList =
      { risk_density := 0, risks := [], safe_points := [],
        summary := "A concise synopsis of the document." } ∧
    "Short. Bits. Tiny.".toList ≠ [] ∧
    segmentClauses "Short. Bits. Tiny.".toList = [] ∧
    ("A concise synopsis of the document." : String) ≠ FALLBACK_SUMMARY := by
  exact ⟨rfl, by decide, by decide, by decide⟩

/-- C8 amended: a non-empty document segmenting into zero clauses yields
risk density 0 and empty risk and safe lists on both surfaces; its
summary field is not omitted: it holds the summarizer output on the
document prefix, and the fallback string exactly when the summarizer
raises on the JSON surface. -/
theorem c8_amended (classify : Classifier) (summarize : Summarizer) (text : List Char)
    (h1 : text ≠ []) (h2 : segmentClauses text = []) :
    analyze_main classify summarize text =
      { risk_density := 0, risks := [], safe_points := [],
        summary := summary_main summarize text } ∧
    (∀ s, summarize (text.take 4000) = .ok s →
      app_main classify summarize text =
        AppOutcome.report
          { risk_density := 0, risks := [], safe_shown := [],
            safe_more := 0, safe_total := 0, summary := s }) ∧
    (summarize (text.take 3000) = .error () →
      (analyze_main classify summarize text).summary = FALLBACK_SUMMARY) := by
  have hmain : classifiedClauses_main text = [] := by
    unfold classifiedClauses_main
    rw [h2]
    rfl
  have happ : classifiedClauses_app text = [] := by
    unfold classifiedClauses_app
    rw [h2]
    rfl
  have hne : ¬ text.isEmpty := by
    rcases text with _ | ⟨c, cs⟩
    · exact absurd rfl h1
    · simp
  refine ⟨?_, ?_, ?_⟩
  · unfold analyze_main risks_main safe_main
    rw [hmain]
    rfl
  · intro s hs
    unfold app_main safe_app
    rw [if_neg hne, hs, happ]
    unfold risk_density_app risks_app
    rw [happ]
    rfl
  · intro h
    show summary_main summarize text = FALLBACK_SUMMARY
    unfold summary_main
    rw [h]

/-- Witness for C8 amended, at a concrete clause-free document and a
succeeding summarizer. -/
theorem c8_amended_witness :
    analyze_main (fun _ => ("Standard Clause", 9/10)) (fun _ => .ok "Nothing to report.")
        "Tiny. Bits. Scraps.".toList =
      { risk_density := 0, risks := [], safe_points := [],
        summary := summary_main (fun _ => .ok "Nothing to report.")
          "Tiny. Bits. Scraps.".toList } ∧
    app_main (fun _ => ("Standard Clause", 9/10)) (fun _ => .ok "Nothing to report.")
        "Tiny. Bits. Scraps.".toList =
      AppOutcome.report
        { risk_density := 0, risks := [], safe_shown := [],
          safe_more := 0, safe_total := 0, summary := "Nothing to report." } :=
  ⟨(c8_amended (fun _ => ("Standard Clause", 9/10)) (fun _ => .ok "Nothing to report.")
      "Tiny. Bits. Scraps.".toList (by decide) (by decide)).1,
    (c8_amended (fun _ => ("Standard Clause", 9/10)) (fun _ => .ok "Nothing to report.")
      "Tiny. Bits. Scraps.".toList (by decide) (by decide)).2.1
      "Nothing to report." rfl⟩

end LegalAudit
